/-
Verification of the memos-mcp server core: a shallow embedding of the
request dispatcher, response normalizer, registry and upstream-client
adapter from src/memos_mcp/server.py and src/memos_mcp/utils/client.py.

JSON values are modelled by the inductive `Json`; Python exceptions by
`PyErr`; Python dict/truthiness/str semantics by small helper functions.
Fallible Python code is embedded in the `Except PyErr` monad.
-/
import Mathlib

set_option linter.unusedVariables false

/-- JSON values, as produced by json.loads / consumed by json.dumps. -/
inductive Json where
  | null
  | bool (b : Bool)
  | num (n : Int)
  | str (s : String)
  | arr (xs : List Json)
  | obj (kvs : List (String × Json))

/-- Python exceptions raised by the embedded code; each carries str(e). -/
inductive PyErr where
  | memosAPIError (msg : String) (statusCode : Option Int)
  | valueError (msg : String)
  | keyError (msg : String)
  | attributeError (msg : String)
  | typeError (msg : String)
  | indexError (msg : String)

/-- Python str(e) for the exceptions above (keyError already stores repr). -/
def pyStrErr : PyErr → String
  | .memosAPIError msg _ => msg
  | .valueError msg => msg
  | .keyError msg => msg
  | .attributeError msg => msg
  | .typeError msg => msg
  | .indexError msg => msg

/-- isinstance(e, MemosAPIError) -/
def isAPIError : PyErr → Bool
  | .memosAPIError _ _ => true
  | _ => false

/-- Python truthiness of a JSON value. -/
def truthy : Json → Bool
  | .null => false
  | .bool b => b
  | .num n => n ≠ 0
  | .str s => s ≠ ""
  | .arr xs => !xs.isEmpty
  | .obj kvs => !kvs.isEmpty

/-- Dict lookup: first binding for the key, if any. -/
def jget (kvs : List (String × Json)) (k : String) : Option Json :=
  (kvs.find? (fun kv => kv.1 == k)).map (fun kv => kv.2)

/-- Python dict.get(k, d) on a known dict. -/
def jgetD (kvs : List (String × Json)) (k : String) (d : Json) : Json :=
  (jget kvs k).getD d

/-- Field lookup on a JSON value that should be an object. -/
def jfield (j : Json) (k : String) : Option Json :=
  match j with
  | .obj kvs => jget kvs k
  | _ => none

/-- Whether an object value carries the given key. -/
def hasKey (j : Json) (k : String) : Bool :=
  (jfield j k).isSome

def isNull : Json → Bool
  | .null => true
  | _ => false

/-- Python type name of a JSON value. -/
def typeName : Json → String
  | .null => "NoneType"
  | .bool _ => "bool"
  | .num _ => "int"
  | .str _ => "str"
  | .arr _ => "list"
  | .obj _ => "dict"

/-- AttributeError raised by `x.get(...)` on a non-dict. -/
def noGetAttr (j : Json) : PyErr :=
  .attributeError ("'" ++ typeName j ++ "' object has no attribute 'get'")

/-- Python str() of a JSON value (container repr abbreviated: the embedded
    code never stringifies containers on the paths exercised here). -/
def pyStr : Json → String
  | .null => "None"
  | .bool true => "True"
  | .bool false => "False"
  | .num n => toString n
  | .str s => s
  | .arr _ => "[...]"
  | .obj _ => "\x7b...\x7d"

/-- Python repr() of a JSON value (string escaping elided: the embedded
    code only reprs plain identifiers). -/
def pyRepr : Json → String
  | .null => "None"
  | .bool true => "True"
  | .bool false => "False"
  | .num n => toString n
  | .str s => "'" ++ s ++ "'"
  | .arr _ => "[...]"
  | .obj _ => "\x7b...\x7d"

/-- Python `j == "s"` where j is an arbitrary value: equality with a str
    is False unless j is that str. -/
def jeqStr (j : Json) (s : String) : Bool :=
  match j with
  | .str t => t == s
  | _ => false

/-- Python `x.get(k, d)`: AttributeError on non-dict. -/
def pyGetD (j : Json) (k : String) (d : Json) : Except PyErr Json :=
  match j with
  | .obj kvs => .ok (jgetD kvs k d)
  | _ => .error (noGetAttr j)

/-- Python s.startswith(pre). -/
def strStartsWith (s pre : String) : Bool :=
  pre.data.isPrefixOf s.data

/-- Python `x[k]` for a string key: KeyError on a dict missing the key,
    TypeError on non-dict containers. -/
def pySubscript (j : Json) (k : String) : Except PyErr Json :=
  match j with
  | .obj kvs =>
    match jget kvs k with
    | some v => .ok v
    | none => .error (.keyError ("'" ++ k ++ "'"))
  | _ => .error (.typeError (typeName j ++ " indices must be integers"))

/-- json.dumps string escaping (default ensure_ascii=True). -/
def escChar (c : Char) : List Char :=
  if c = '"' then ['\\', '"']
  else if c = '\\' then ['\\', '\\']
  else if c = '\n' then ['\\', 'n']
  else if c = '\t' then ['\\', 't']
  else if c = '\r' then ['\\', 'r']
  else if c.toNat == 8 then ['\\', 'b']
  else if c.toNat == 12 then ['\\', 'f']
  else if c.toNat < 0x20 ∨ 0x7F ≤ c.toNat then
    -- \uXXXX escape; codepoints beyond the BMP use a surrogate pair
    let hex4 (n : Nat) : List Char :=
      let d (m : Nat) : Char :=
        if m < 10 then Char.ofNat (48 + m) else Char.ofNat (87 + m)
      ['\\', 'u', d (n / 4096 % 16), d (n / 256 % 16), d (n / 16 % 16), d (n % 16)]
    if c.toNat < 0x10000 then hex4 c.toNat
    else
      let v := c.toNat - 0x10000
      hex4 (0xD800 + v / 1024) ++ hex4 (0xDC00 + v % 1024)
  else [c]

def jsonEscape (s : String) : String :=
  ⟨s.data.flatMap escChar⟩

mutual
/-- json.dumps with Python's default separators. -/
def jsonDumps : Json → String
  | .null => "null"
  | .bool true => "true"
  | .bool false => "false"
  | .num n => toString n
  | .str s => "\"" ++ jsonEscape s ++ "\""
  | .arr xs => "[" ++ jsonDumpsList xs ++ "]"
  | .obj kvs => "\x7b" ++ jsonDumpsObj kvs ++ "\x7d"

def jsonDumpsList : List Json → String
  | [] => ""
  | [x] => jsonDumps x
  | x :: xs => jsonDumps x ++ ", " ++ jsonDumpsList xs

def jsonDumpsObj : List (String × Json) → String
  | [] => ""
  | [(k, v)] => "\"" ++ jsonEscape k ++ "\": " ++ jsonDumps v
  | (k, v) :: kvs => "\"" ++ jsonEscape k ++ "\": " ++ jsonDumps v ++ ", " ++ jsonDumpsObj kvs
end

/- ===== utils/client.py: _memo_path_segment (identifier normalization) ===== -/

/-- Python str.strip() whitespace (the Unicode whitespace codepoints). -/
def isPySpace (c : Char) : Bool :=
  let n := c.toNat
  (0x09 ≤ n && n ≤ 0x0D) || (0x1C ≤ n && n ≤ 0x1F) || n == 0x20 ||
  n == 0x85 || n == 0xA0 || n == 0x1680 || (0x2000 ≤ n && n ≤ 0x200A) ||
  n == 0x2028 || n == 0x2029 || n == 0x202F || n == 0x205F || n == 0x3000

/-- Python str.strip(): drop whitespace at both ends. -/
def pyStrip (l : List Char) : List Char :=
  ((l.dropWhile isPySpace).reverse.dropWhile isPySpace).reverse

/-- `if name.startswith("memos/"): name = name[len("memos/"):].lstrip("/")` -/
def stripMemosName (l : List Char) : List Char :=
  match l with
  | 'm' :: 'e' :: 'm' :: 'o' :: 's' :: '/' :: rest => rest.dropWhile (fun c => c == '/')
  | _ => l

/-- urllib always-safe bytes (letters, digits, and one of _.-~);
    quote is called with safe="" so nothing else is kept. -/
def isSafeByte (n : Nat) : Bool :=
  (0x30 ≤ n && n ≤ 0x39) || (0x41 ≤ n && n ≤ 0x5A) || (0x61 ≤ n && n ≤ 0x7A) ||
  n == 0x2D || n == 0x2E || n == 0x5F || n == 0x7E

/-- UTF-8 encoding of one codepoint. -/
def utf8Bytes (c : Char) : List Nat :=
  let n := c.toNat
  if n < 0x80 then [n]
  else if n < 0x800 then [0xC0 + n / 64, 0x80 + n % 64]
  else if n < 0x10000 then [0xE0 + n / 4096, 0x80 + (n / 64) % 64, 0x80 + n % 64]
  else [0xF0 + n / 262144, 0x80 + (n / 4096) % 64, 0x80 + (n / 64) % 64, 0x80 + n % 64]

def hexDigitU : Nat → Char
  | 0 => '0' | 1 => '1' | 2 => '2' | 3 => '3' | 4 => '4'
  | 5 => '5' | 6 => '6' | 7 => '7' | 8 => '8' | 9 => '9'
  | 10 => 'A' | 11 => 'B' | 12 => 'C' | 13 => 'D' | 14 => 'E'
  | _ => 'F'

/-- urllib.parse.quote of one character with safe="": a safe ASCII
    character is kept; anything else has each UTF-8 byte written %XX
    (every byte of a non-safe character is itself non-safe). -/
def pyQuoteChar (c : Char) : List Char :=
  if isSafeByte c.toNat then [c]
  else (utf8Bytes c).flatMap (fun b => ['%', hexDigitU (b / 16), hexDigitU (b % 16)])

/-- urllib.parse.quote(s, safe=""). -/
def pyQuote (l : List Char) : List Char :=
  l.flatMap pyQuoteChar

/-- _memo_path_segment: strip whitespace, drop one leading "memos/"
    prefix (and following slashes), percent-encode the remainder. -/
def memoPathSegment (l : List Char) : List Char :=
  pyQuote (stripMemosName (pyStrip l))

/- ===== utils/client.py: MemosClient.search_memos ===== -/

/-- One outgoing HTTP request as _make_request would issue it
    (query parameters before urlencoding; search sends no body). -/
structure HttpRequest where
  httpMethod : String
  endpoint : String
  params : List (String × String)

/-- `query.replace("\\", "\\\\").replace('"', '\\"')` -/
def celEscape (q : String) : String :=
  (q.replace "\\" "\\\\").replace "\"" "\\\""

/-- `f'content.contains("{escaped}")'` -/
def searchFilter (q : String) : String :=
  "content.contains(\"" ++ celEscape q ++ "\")"

/-- Query parameters of the search request: only pageSize and the CEL
    content filter (page_token is never passed by the server handlers). -/
def buildSearchRequest (query : String) (pageSize : Json) : HttpRequest :=
  { httpMethod := "GET", endpoint := "/memos",
    params := [("pageSize", pyStr pageSize), ("filter", searchFilter query)] }

/-- MemosClient.search_memos over an abstract transport `upstream`
    standing for _make_request. The `page` argument is accepted but,
    as in the source, not used to build the request. -/
def clientSearchMemos (upstream : HttpRequest → Except PyErr Json)
    (query page pageSize : Json) : Except PyErr Json :=
  match (if truthy query then query else .str "") with
  | .str s => upstream (buildSearchRequest s pageSize)
  | j => .error (.attributeError ("'" ++ typeName j ++ "' object has no attribute 'replace'"))

/- ===== server.py: response normalizer helpers ===== -/

/-- Python `a or b`. -/
def pyOr (a b : Json) : Json :=
  if truthy a then a else b

/-- _memo_created: `memo.get("createTime") or memo.get("createdTs", "")` -/
def memoCreated (kvs : List (String × Json)) : Json :=
  pyOr (jgetD kvs "createTime" .null) (jgetD kvs "createdTs" (.str ""))

/-- _memo_updated: `memo.get("updateTime") or memo.get("updatedTs", "")` -/
def memoUpdated (kvs : List (String × Json)) : Json :=
  pyOr (jgetD kvs "updateTime" .null) (jgetD kvs "updatedTs" (.str ""))

/-- _memo_creator: creator as nested object resolves its nickname
    (default "Unknown"), a plain truthy value is stringified, anything
    falsy gives "Unknown"; non-dict memo raises on .get. -/
def memoCreator : Json → Except PyErr Json
  | .obj kvs =>
    match jgetD kvs "creator" .null with
    | .obj ckvs => .ok (jgetD ckvs "nickname" (.str "Unknown"))
    | c => .ok (if truthy c then .str (pyStr c) else .str "Unknown")
  | j => .error (noGetAttr j)

/-- _result_memos: `result.get("memos", result.get("data", []))` -/
def resultMemos : Json → Except PyErr Json
  | .obj kvs => .ok (jgetD kvs "memos" (jgetD kvs "data" (.arr [])))
  | j => .error (noGetAttr j)

/-- _result_memo: `result.get("memo", result.get("data", {}))` -/
def resultMemo : Json → Except PyErr Json
  | .obj kvs => .ok (jgetD kvs "memo" (jgetD kvs "data" (.obj [])))
  | j => .error (noGetAttr j)

/-- Python `x[0]`. -/
def pySubscriptZero : Json → Except PyErr Json
  | .arr (x :: _) => .ok x
  | .arr [] => .error (.indexError "list index out of range")
  | .str s =>
    match s.data with
    | c :: _ => .ok (.str (String.singleton c))
    | [] => .error (.indexError "string index out of range")
  | .obj _ => .error (.keyError "0")
  | j => .error (.typeError ("'" ++ typeName j ++ "' object is not subscriptable"))

/-- Python iteration `for x in j`: lists yield elements, strings yield
    one-character strings, dicts yield their keys. -/
def pyIter : Json → Except PyErr (List Json)
  | .arr xs => .ok xs
  | .str s => .ok (s.data.map (fun c => .str (String.singleton c)))
  | .obj kvs => .ok (kvs.map (fun kv => .str kv.1))
  | j => .error (.typeError ("'" ++ typeName j ++ "' object is not iterable"))

/-- `[t.get("name", "") for t in raw_tags if t.get("name")]`: raises
    AttributeError at the first non-dict element. -/
def tagNames : List Json → Except PyErr (List Json)
  | [] => .ok []
  | .obj tk :: ts =>
    (tagNames ts).map (fun rest =>
      if truthy (jgetD tk "name" .null) then jgetD tk "name" (.str "") :: rest else rest)
  | j :: _ => .error (noGetAttr j)

/-- The tags branch of _memo_to_json_obj: when raw_tags is truthy its
    first element decides the shape (dict first means every element is
    read as a dict); falsy raw_tags gives []. The inner
    `if raw_tags else []` of the source collapses because truthiness is
    already known on each branch. -/
def memoTags (rawTags : Json) : Except PyErr (List Json) :=
  if truthy rawTags then do
    let t0 ← pySubscriptZero rawTags
    match t0 with
    | .obj _ => do
      let elems ← pyIter rawTags
      tagNames elems
    | _ => do
      let elems ← pyIter rawTags
      pure (elems.map (fun t => Json.str (pyStr t)))
  else
    pure []

/-- _memo_to_json_obj: the canonical note shape
    (name, createTime, updateTime, content, tags). -/
def memoToJsonObj : Json → Except PyErr Json
  | .obj kvs => do
    let tags ← memoTags (jgetD kvs "tags" (.arr []))
    pure (.obj
      [("name", pyOr (jgetD kvs "name" .null) (.str (pyStr (jgetD kvs "id" (.str ""))))),
       ("createTime", memoCreated kvs),
       ("updateTime", memoUpdated kvs),
       ("content", jgetD kvs "content" (.str "")),
       ("tags", .arr tags)])
  | j => .error (noGetAttr j)

/-- _create_memo_response: reduced view of a fresh note. -/
def createMemoResponse : Json → Except PyErr Json
  | .obj kvs =>
    .ok (.obj
      [("name", pyOr (jgetD kvs "name" .null) (.str (pyStr (jgetD kvs "id" (.str ""))))),
       ("createTime", memoCreated kvs),
       ("content", jgetD kvs "content" (.str ""))])
  | j => .error (noGetAttr j)

/-- _api_error_json payload: {"error": str(e)} plus status_code when the
    exception is a MemosAPIError carrying one. -/
def apiErrorPayload (e : PyErr) : Json :=
  match e with
  | .memosAPIError msg (some code) => .obj [("error", .str msg), ("status_code", .num code)]
  | _ => .obj [("error", .str (pyStrErr e))]

/- ===== server.py: tool handlers over an abstract upstream client ===== -/

/-- The memos_client operations a handler may invoke; each may raise. -/
structure Client where
  createOp : Json → Json → Except PyErr Json
  listOp : Json → Json → Json → Json → Except PyErr Json
  getOp : Json → Except PyErr Json
  updateOp : Json → Json → Json → Json → Except PyErr Json
  deleteOp : Json → Except PyErr Json
  searchOp : Json → Json → Json → Except PyErr Json

/-- The common `try/except MemosAPIError/except Exception` wrapper of the
    handler bodies in server.py. -/
def handlerWrap (body : Except PyErr String) : String :=
  match body with
  | .ok s => s
  | .error e =>
    if isAPIError e then jsonDumps (apiErrorPayload e)
    else jsonDumps (.obj [("error", .str (pyStrErr e))])

/-- SimpleMCPServer._create_memo -/
def createMemoH (c : Client) (content visibility : Json) : String :=
  handlerWrap (do
    let result ← c.createOp content visibility
    match result with
    | .obj kvs =>
      let memo :=
        if !isNull (jgetD kvs "name" .null) || !isNull (jgetD kvs "content" .null) then
          Json.obj kvs
        else
          jgetD kvs "memo" (jgetD kvs "data" (.obj []))
      if truthy memo then do
        let resp ← createMemoResponse memo
        pure (jsonDumps (.obj [("success", .bool true), ("memo", resp)]))
      else
        pure (jsonDumps (.obj [("success", .bool false), ("error", .str "No memo in response")]))
    | _ => pure (jsonDumps (.obj [("success", .bool false), ("error", .str "No memo in response")])))

def mapMemoToJson (l : List Json) : Except PyErr (List Json) :=
  l.mapM memoToJsonObj

/-- SimpleMCPServer._list_memos -/
def listMemosH (c : Client) (page pageSize visibility tag : Json) : String :=
  handlerWrap (do
    let result ← c.listOp page pageSize visibility tag
    let memos ← resultMemos result
    if !truthy memos then
      pure (jsonDumps (.obj [("memos", .arr []), ("count", .num 0)]))
    else do
      let elems ← pyIter memos
      let items ← mapMemoToJson elems
      pure (jsonDumps (.obj [("memos", .arr items), ("count", .num items.length)])))

/-- SimpleMCPServer._get_memo -/
def getMemoH (c : Client) (memoName : Json) : String :=
  handlerWrap (do
    let result ← c.getOp memoName
    let memo ← resultMemo result
    if !truthy memo then
      pure (jsonDumps (.obj [("error", .str ("Memo " ++ pyRepr memoName ++ " not found."))]))
    else do
      let m ← memoToJsonObj memo
      pure (jsonDumps m))

/-- SimpleMCPServer._update_memo -/
def updateMemoH (c : Client) (memoName content visibility rowStatus : Json) : String :=
  handlerWrap (do
    let _ ← c.updateOp memoName content visibility rowStatus
    pure (jsonDumps (.obj [("success", .bool true), ("memo_name", memoName)])))

/-- SimpleMCPServer._delete_memo -/
def deleteMemoH (c : Client) (memoName : Json) : String :=
  handlerWrap (do
    let _ ← c.deleteOp memoName
    pure (jsonDumps (.obj [("success", .bool true), ("memo_name", memoName)])))

/-- SimpleMCPServer._search_memos -/
def searchMemosH (c : Client) (query page pageSize : Json) : String :=
  handlerWrap (do
    let result ← c.searchOp query page pageSize
    let memos ← resultMemos result
    if !truthy memos then
      pure (jsonDumps (.obj [("memos", .arr []), ("count", .num 0), ("query", query)]))
    else do
      let elems ← pyIter memos
      let items ← mapMemoToJson elems
      pure (jsonDumps (.obj [("memos", .arr items), ("count", .num items.length), ("query", query)])))


/-- SimpleMCPServer._get_memo_resource (same body as _get_memo). -/
def getMemoResourceH (c : Client) (memoName : Json) : String :=
  handlerWrap (do
    let result ← c.getOp memoName
    let memo ← resultMemo result
    if !truthy memo then
      pure (jsonDumps (.obj [("error", .str ("Memo " ++ pyRepr memoName ++ " not found."))]))
    else do
      let m ← memoToJsonObj memo
      pure (jsonDumps m))

/-- SimpleMCPServer._get_memos_list_resource: list_memos(page_size=50),
    the client fills page=1, visibility=None, tag=None. -/
def memosListResourceH (c : Client) : String :=
  handlerWrap (do
    let result ← c.listOp (.num 1) (.num 50) .null .null
    let memos ← resultMemos result
    if !truthy memos then
      pure (jsonDumps (.obj [("memos", .arr []), ("count", .num 0)]))
    else do
      let elems ← pyIter memos
      let items ← mapMemoToJson elems
      pure (jsonDumps (.obj [("memos", .arr items), ("count", .num items.length)])))

/-- SimpleMCPServer._search_memos_resource: search_memos(query, page_size=20),
    the client fills page=1. -/
def searchMemosResourceH (c : Client) (query : Json) : String :=
  handlerWrap (do
    let result ← c.searchOp query (.num 1) (.num 20)
    let memos ← resultMemos result
    if !truthy memos then
      pure (jsonDumps (.obj [("memos", .arr []), ("count", .num 0), ("query", query)]))
    else do
      let elems ← pyIter memos
      let items ← mapMemoToJson elems
      pure (jsonDumps (.obj [("memos", .arr items), ("count", .num items.length), ("query", query)])))

/- ===== server.py: handle_tool_call ===== -/

/-- One resolved invocation of an internal tool handler, with the
    arguments (defaults applied) it is invoked with. -/
inductive ToolCall where
  | createCall (content visibility : Json)
  | listCall (page pageSize visibility tag : Json)
  | getCall (name : Json)
  | updateCall (name content visibility rowStatus : Json)
  | deleteCall (name : Json)
  | searchCall (query page pageSize : Json)

/-- The routing and argument extraction of handle_tool_call
    (server.py lines 246-288): required fields via `arguments[...]`,
    optional fields via `arguments.get(..., default)`, unknown tool
    raises ValueError. -/
def toolRoute (toolName arguments : Json) : Except PyErr ToolCall :=
  if jeqStr toolName "create_memo" then do
    let content ← pySubscript arguments "content"
    let visibility ← pyGetD arguments "visibility" (.str "PRIVATE")
    pure (.createCall content visibility)
  else if jeqStr toolName "list_memos" then do
    let page ← pyGetD arguments "page" (.num 1)
    let pageSize ← pyGetD arguments "page_size" (.num 20)
    let visibility ← pyGetD arguments "visibility" .null
    let tag ← pyGetD arguments "tag" .null
    pure (.listCall page pageSize visibility tag)
  else if jeqStr toolName "get_memo" then do
    let name ← pySubscript arguments "name"
    pure (.getCall name)
  else if jeqStr toolName "update_memo" then do
    let name ← pySubscript arguments "name"
    let content ← pyGetD arguments "content" .null
    let visibility ← pyGetD arguments "visibility" .null
    let rowStatus ← pyGetD arguments "row_status" .null
    pure (.updateCall name content visibility rowStatus)
  else if jeqStr toolName "delete_memo" then do
    let name ← pySubscript arguments "name"
    pure (.deleteCall name)
  else if jeqStr toolName "search_memos" then do
    let query ← pySubscript arguments "query"
    let page ← pyGetD arguments "page" (.num 1)
    let pageSize ← pyGetD arguments "page_size" (.num 20)
    pure (.searchCall query page pageSize)
  else
    .error (.valueError ("Unknown tool: " ++ pyStr toolName))

/-- Invoke the internal handler selected by toolRoute. -/
def runToolCall (c : Client) : ToolCall → String
  | .createCall content visibility => createMemoH c content visibility
  | .listCall page pageSize visibility tag => listMemosH c page pageSize visibility tag
  | .getCall name => getMemoH c name
  | .updateCall name content visibility rowStatus => updateMemoH c name content visibility rowStatus
  | .deleteCall name => deleteMemoH c name
  | .searchCall query page pageSize => searchMemosH c query page pageSize

/-- `{"content": [{"type": "text", "text": s}]}` -/
def textContent (s : String) : Json :=
  .obj [("content", .arr [.obj [("type", .str "text"), ("text", .str s)]])]

/-- SimpleMCPServer.handle_tool_call: route, run, and catch every
    exception into an error payload inside the content result. -/
def handleToolCall (c : Client) (toolName arguments : Json) : Json :=
  match toolRoute toolName arguments with
  | .ok tc => textContent (runToolCall c tc)
  | .error e =>
    textContent (jsonDumps (.obj
      [("error", .str ("Error executing " ++ pyStr toolName ++ ": " ++ pyStrErr e))]))

/- ===== server.py: handle_resource_read ===== -/

/-- `{"contents": [{"type": "text", "text": s}]}` -/
def contentsOf (s : String) : Json :=
  .obj [("contents", .arr [.obj [("type", .str "text"), ("text", .str s)]])]

/-- SimpleMCPServer.handle_resource_read: URI matched by scheme prefix;
    an unmatched URI raises ValueError, and every exception is caught
    into an error payload inside the contents result. -/
def handleResourceRead (c : Client) (uri : Json) : Json :=
  let body : Except PyErr Json :=
    match uri with
    | .str s =>
      if strStartsWith s "memo://" then
        .ok (contentsOf (getMemoResourceH c (.str (s.replace "memo://" ""))))
      else if s == "memos://list" then
        .ok (contentsOf (memosListResourceH c))
      else if strStartsWith s "memos://search/" then
        .ok (contentsOf (searchMemosResourceH c (.str (s.replace "memos://search/" ""))))
      else
        .error (.valueError ("Unknown resource URI: " ++ s))
    | j => .error (.attributeError ("'" ++ typeName j ++ "' object has no attribute 'startswith'"))
  match body with
  | .ok r => r
  | .error e =>
    contentsOf (jsonDumps (.obj
      [("error", .str ("Error reading resource " ++ pyStr uri ++ ": " ++ pyStrErr e))]))

/- ===== server.py: registries and prompt rendering ===== -/

/-- self.tools, in registration order, as served by tools/list. -/
def toolsRegistry : List Json :=
  [.obj [("name", .str "create_memo"),
         ("description", .str "Create a new memo in Memos"),
         ("inputSchema", .obj
           [("type", .str "object"),
            ("properties", .obj
              [("content", .obj [("type", .str "string"),
                                 ("description", .str "The content of the memo")]),
               ("visibility", .obj [("type", .str "string"),
                                    ("enum", .arr [.str "PUBLIC", .str "PRIVATE", .str "PROTECTED"]),
                                    ("default", .str "PRIVATE"),
                                    ("description", .str "Visibility level")])]),
            ("required", .arr [.str "content"])])],
   .obj [("name", .str "list_memos"),
         ("description", .str "List memos from Memos with optional filters"),
         ("inputSchema", .obj
           [("type", .str "object"),
            ("properties", .obj
              [("page", .obj [("type", .str "integer"), ("default", .num 1)]),
               ("page_size", .obj [("type", .str "integer"), ("default", .num 20)]),
               ("visibility", .obj [("type", .str "string")]),
               ("tag", .obj [("type", .str "string")])])])],
   .obj [("name", .str "get_memo"),
         ("description", .str "Get a specific memo by name (e.g. memos/xxxxx)"),
         ("inputSchema", .obj
           [("type", .str "object"),
            ("properties", .obj
              [("name", .obj [("type", .str "string"),
                              ("description", .str "The memo name (e.g. memos/xxxxx)")])]),
            ("required", .arr [.str "name"])])],
   .obj [("name", .str "update_memo"),
         ("description", .str "Update an existing memo by name (e.g. memos/xxxxx)"),
         ("inputSchema", .obj
           [("type", .str "object"),
            ("properties", .obj
              [("name", .obj [("type", .str "string"),
                              ("description", .str "The memo name (e.g. memos/xxxxx)")]),
               ("content", .obj [("type", .str "string")]),
               ("visibility", .obj [("type", .str "string")]),
               ("row_status", .obj [("type", .str "string")])]),
            ("required", .arr [.str "name"])])],
   .obj [("name", .str "delete_memo"),
         ("description", .str "Delete a memo by name (e.g. memos/xxxxx)"),
         ("inputSchema", .obj
           [("type", .str "object"),
            ("properties", .obj
              [("name", .obj [("type", .str "string"),
                              ("description", .str "The memo name (e.g. memos/xxxxx)")])]),
            ("required", .arr [.str "name"])])],
   .obj [("name", .str "search_memos"),
         ("description", .str "Search memos by content"),
         ("inputSchema", .obj
           [("type", .str "object"),
            ("properties", .obj
              [("query", .obj [("type", .str "string")]),
               ("page", .obj [("type", .str "integer"), ("default", .num 1)]),
               ("page_size", .obj [("type", .str "integer"), ("default", .num 20)])]),
            ("required", .arr [.str "query"])])]]

/-- resources/list result entries (uriTemplate flattened to uri, in
    registration order memo, memos_list, memos_search). -/
def resourcesList : List Json :=
  [.obj [("uri", .str "memo://\x7bmemo_name\x7d"),
         ("name", .str "Individual memo"),
         ("description", .str "Access individual memo content (memo_name e.g. memos/xxxxx)")],
   .obj [("uri", .str "memos://list"),
         ("name", .str "Recent memos list"),
         ("description", .str "Access list of recent memos")],
   .obj [("uri", .str "memos://search/\x7bquery\x7d"),
         ("name", .str "Memos search"),
         ("description", .str "Access search results")]]

/-- self.prompts, in registration order, as served by prompts/list. -/
def promptsRegistry : List Json :=
  [.obj [("name", .str "memo_summary"),
         ("description", .str "Generate a prompt for summarizing recent memos"),
         ("arguments", .arr
           [.obj [("name", .str "memo_count"),
                  ("description", .str "Number of recent memos to summarize"),
                  ("type", .str "integer"),
                  ("default", .num 5)]])],
   .obj [("name", .str "memo_organization"),
         ("description", .str "Generate a prompt for helping organize memos"),
         ("arguments", .arr
           [.obj [("name", .str "tag"),
                  ("description", .str "Specific tag to focus on (optional)"),
                  ("type", .str "string")]])]]

/-- self.prompts[name]["description"]: a missing prompt name raises
    KeyError, an unhashable name raises TypeError. -/
def promptDescription : Json → Except PyErr Json
  | .str "memo_summary" => .ok (.str "Generate a prompt for summarizing recent memos")
  | .str "memo_organization" => .ok (.str "Generate a prompt for helping organize memos")
  | .str s => .error (.keyError ("'" ++ s ++ "'"))
  | .arr _ => .error (.typeError "unhashable type: 'list'")
  | .obj _ => .error (.typeError "unhashable type: 'dict'")
  | j => .error (.keyError (pyRepr j))

def memoSummaryText (memoCount : String) : String :=
  "Please summarize the most recent " ++ memoCount ++ " memos from my Memos instance.\n\n" ++
  "Focus on:\n1. Key themes and topics\n2. Action items or tasks mentioned\n" ++
  "3. Important insights or decisions\n4. Any patterns or trends\n\n" ++
  "Use the list_memos tool to retrieve the recent memos, then provide a comprehensive summary."

def memoOrganizationTagText (tag : String) : String :=
  "Help me organize and analyze my memos tagged with '" ++ tag ++ "'.\n\n" ++
  "Please:\n1. Retrieve all memos with this tag using the list_memos tool\n" ++
  "2. Identify common themes and patterns\n" ++
  "3. Suggest better organization or additional tags\n" ++
  "4. Highlight any important action items or follow-ups"

def memoOrganizationText : String :=
  "Help me organize my memos.\n\n" ++
  "Please:\n1. Retrieve recent memos using list_memos (each memo has a tags field)\n" ++
  "2. Analyze the current organization and tags used\n" ++
  "3. Suggest improvements to tagging and structure\n" ++
  "4. Identify any memos that need better organization"

/-- SimpleMCPServer._get_prompt_content. -/
def getPromptContent (name arguments : Json) : Except PyErr String :=
  if jeqStr name "memo_summary" then do
    let memoCount ← pyGetD arguments "memo_count" (.num 5)
    pure (memoSummaryText (pyStr memoCount))
  else if jeqStr name "memo_organization" then do
    let tag ← pyGetD arguments "tag" .null
    if truthy tag then pure (memoOrganizationTagText (pyStr tag))
    else pure memoOrganizationText
  else
    pure ("Unknown prompt: " ++ pyStr name)

/- ===== server.py: _handle_message ===== -/

def initializeResult : Json :=
  .obj [("protocolVersion", .str "2024-11-05"),
        ("capabilities", .obj
          [("tools", .obj [("listChanged", .bool true)]),
           ("resources", .obj [("subscribe", .bool false), ("listChanged", .bool true)]),
           ("prompts", .obj [("listChanged", .bool true)])]),
        ("serverInfo", .obj [("name", .str "memos-mcp-server"), ("version", .str "1.0.0")])]

def okEnvelope (id result : Json) : Json :=
  .obj [("jsonrpc", .str "2.0"), ("id", id), ("result", result)]

def errEnvelope (id : Json) (code : Int) (msg : String) : Json :=
  .obj [("jsonrpc", .str "2.0"), ("id", id),
        ("error", .obj [("code", .num code), ("message", .str msg)])]

/-- The result payload for one recognized method (none for an unknown
    method); an .error is an exception escaping to the dispatcher's
    except-clause. -/
def routePayload (c : Client) (method params : Json) : Option (Except PyErr Json) :=
  if jeqStr method "initialize" then
    some (.ok initializeResult)
  else if jeqStr method "tools/list" then
    some (.ok (.obj [("tools", .arr toolsRegistry)]))
  else if jeqStr method "tools/call" then
    some (do
      let toolName ← pyGetD params "name" .null
      let arguments ← pyGetD params "arguments" (.obj [])
      pure (handleToolCall c toolName arguments))
  else if jeqStr method "resources/list" then
    some (.ok (.obj [("resources", .arr resourcesList)]))
  else if jeqStr method "resources/read" then
    some (do
      let uri ← pyGetD params "uri" .null
      pure (handleResourceRead c uri))
  else if jeqStr method "prompts/list" then
    some (.ok (.obj [("prompts", .arr promptsRegistry)]))
  else if jeqStr method "prompts/get" then
    some (do
      let name ← pyGetD params "name" .null
      let arguments ← pyGetD params "arguments" (.obj [])
      let prompt ← getPromptContent name arguments
      let desc ← promptDescription name
      pure (.obj
        [("description", desc),
         ("messages", .arr
           [.obj [("role", .str "user"),
                  ("content", .obj [("type", .str "text"), ("text", .str prompt)])]])]))
  else
    none

/-- The try-block of _handle_message: each recognized method wraps its
    payload in a success envelope, an unknown method yields -32601, and
    an exception escaping a branch yields -32603. -/
def handleMessageBody (c : Client) (messageId method params : Json) : Json :=
  match routePayload c method params with
  | some (.ok payload) => okEnvelope messageId payload
  | some (.error e) => errEnvelope messageId (-32603) ("Internal error: " ++ pyStrErr e)
  | none => errEnvelope messageId (-32601) ("Method not found: " ++ pyStr method)

/-- SimpleMCPServer._handle_message: the id/method/params extraction
    happens before the try-block, so a non-dict message propagates its
    AttributeError to the transport loop. -/
def handleMessage (c : Client) (message : Json) : Except PyErr Json :=
  match message with
  | .obj kvs =>
    .ok (handleMessageBody c (jgetD kvs "id" .null) (jgetD kvs "method" .null)
          (jgetD kvs "params" (.obj [])))
  | j => .error (noGetAttr j)

/- ===== concrete clients used to instantiate the theorems ===== -/

/-- A client whose every operation succeeds with the fixed response r. -/
def constClient (r : Json) : Client :=
  { createOp := fun _ _ => .ok r,
    listOp := fun _ _ _ _ => .ok r,
    getOp := fun _ => .ok r,
    updateOp := fun _ _ _ _ => .ok r,
    deleteOp := fun _ => .ok r,
    searchOp := fun _ _ _ => .ok r }

/-- A client whose delete raises MemosAPIError(msg, code). -/
def deleteErrClient (msg : String) (code : Int) : Client :=
  { constClient .null with deleteOp := fun _ => .error (.memosAPIError msg (some code)) }

/-- The real search_memos wired over an abstract HTTP transport. -/
def searchClient (upstream : HttpRequest → Except PyErr Json) : Client :=
  { constClient .null with searchOp := clientSearchMemos upstream }

/-- The envelope written back for a message the dispatcher handles
    (read off the .ok branch of handleMessage). -/
def dispatchResp (c : Client) (message : Json) : Json :=
  match handleMessage c message with
  | .ok env => env
  | .error _ => .null

def isObjJ : Json → Bool
  | .obj _ => true
  | _ => false

/-- The six registered tool names. -/
def registeredTool (s : String) : Bool :=
  s == "create_memo" || s == "list_memos" || s == "get_memo" ||
  s == "update_memo" || s == "delete_memo" || s == "search_memos"

/-- The three resource URI schemes handle_resource_read matches. -/
def knownResourceUri (s : String) : Bool :=
  strStartsWith s "memo://" || s == "memos://list" || strStartsWith s "memos://search/"

/-- The seven RPC methods _handle_message recognizes. -/
def recognizedMethod (j : Json) : Bool :=
  jeqStr j "initialize" || jeqStr j "tools/list" || jeqStr j "tools/call" ||
  jeqStr j "resources/list" || jeqStr j "resources/read" ||
  jeqStr j "prompts/list" || jeqStr j "prompts/get"

/- ===================== theorems ===================== -/

theorem dropWhile_eq_self_of (p : Char → Bool) (l : List Char)
    (h : ∀ c ∈ l, p c = false) : l.dropWhile p = l := by
  cases l with
  | nil => rfl
  | cons a t => simp [List.dropWhile_cons, h a (List.mem_cons_self a t)]

theorem pyStrip_eq_self (l : List Char) (h : ∀ c ∈ l, isPySpace c = false) :
    pyStrip l = l := by
  unfold pyStrip
  rw [dropWhile_eq_self_of _ _ h,
      dropWhile_eq_self_of _ _ (fun c hc => h c (List.mem_reverse.mp hc)),
      List.reverse_reverse]

theorem safe_not_space {c : Char} (h : isSafeByte c.toNat = true) : isPySpace c = false := by
  simp only [isSafeByte, Bool.or_eq_true, Bool.and_eq_true, decide_eq_true_eq, beq_iff_eq] at h
  simp only [isPySpace, Bool.or_eq_false_iff, Bool.and_eq_false_iff, decide_eq_false_iff_not,
    beq_eq_false_iff_ne, ne_eq]
  omega

theorem pyQuote_of_safe (l : List Char) (h : ∀ c ∈ l, isSafeByte c.toNat = true) :
    pyQuote l = l := by
  induction l with
  | nil => rfl
  | cons a t ih =>
    have ha := h a (List.mem_cons_self a t)
    simp [pyQuote, pyQuoteChar, ha] at ih ⊢
    exact ih (fun c hc => h c (List.mem_cons_of_mem a hc))

theorem stripMemosName_eq_self (l : List Char) (h : ∀ c ∈ l, isSafeByte c.toNat = true) :
    stripMemosName l = l := by
  unfold stripMemosName
  split
  · rename_i rest
    exact absurd (h '/' (by simp)) (by decide)
  · rfl

/-- C2 (counterexample): identifier normalization is not idempotent on
    every input: "a b" normalizes to "a%20b", which re-normalizes to
    "a%2520b" because percent-encoding re-encodes the % sign. -/
theorem normalize_idempotent_counterexample :
    memoPathSegment (memoPathSegment ("a b".data)) ≠ memoPathSegment ("a b".data) := by
  decide

/-- C2 (amended): normalization is idempotent on every input whose
    trimmed, prefix-stripped remainder consists only of
    percent-encoding-safe characters, and normalize("memos/abc")
    equals normalize("abc"). -/
theorem normalize_idempotent_safe :
    (∀ l : List Char,
        (∀ c ∈ stripMemosName (pyStrip l), isSafeByte c.toNat = true) →
        memoPathSegment (memoPathSegment l) = memoPathSegment l) ∧
    memoPathSegment ("memos/abc".data) = memoPathSegment ("abc".data) := by
  constructor
  · intro l h
    have hq : memoPathSegment l = stripMemosName (pyStrip l) := pyQuote_of_safe _ h
    rw [hq]
    unfold memoPathSegment
    rw [pyStrip_eq_self _ (fun c hc => safe_not_space (h c hc)),
        stripMemosName_eq_self _ h, pyQuote_of_safe _ h]
  · decide

/-- Witness for C2: the amended idempotence applied to "abc". -/
theorem normalize_idempotent_safe_witness :
    memoPathSegment (memoPathSegment ("abc".data)) = memoPathSegment ("abc".data) :=
  normalize_idempotent_safe.1 ("abc".data) (by decide)

/-- C1 (counterexample): a tools/call naming the unregistered tool "nope"
    and a resources/read with the unmatched URI "foo://x" both come back
    in an envelope that has a result field and no top-level error field,
    contradicting the claim that such routing failures use the RPC
    error field. -/
theorem unknown_tool_counterexample :
    hasKey (dispatchResp (constClient .null)
        (.obj [("id", .num 1), ("method", .str "tools/call"),
               ("params", .obj [("name", .str "nope"), ("arguments", .obj [])])])) "error" = false ∧
    hasKey (dispatchResp (constClient .null)
        (.obj [("id", .num 1), ("method", .str "tools/call"),
               ("params", .obj [("name", .str "nope"), ("arguments", .obj [])])])) "result" = true ∧
    hasKey (dispatchResp (constClient .null)
        (.obj [("id", .num 1), ("method", .str "resources/read"),
               ("params", .obj [("uri", .str "foo://x")])])) "error" = false ∧
    hasKey (dispatchResp (constClient .null)
        (.obj [("id", .num 1), ("method", .str "resources/read"),
               ("params", .obj [("uri", .str "foo://x")])])) "result" = true :=
  ⟨rfl, rfl, rfl, rfl⟩

theorem toolRoute_unregistered (args : Json) (s : String)
    (hs : registeredTool s = false) :
    toolRoute (.str s) args = .error (.valueError ("Unknown tool: " ++ s)) := by
  simp only [registeredTool, Bool.or_eq_false_iff] at hs
  obtain ⟨⟨⟨⟨⟨h1, h2⟩, h3⟩, h4⟩, h5⟩, h6⟩ := hs
  simp only [toolRoute, jeqStr, h1, h2, h3, h4, h5, h6, Bool.false_eq_true, if_false, pyStr]

theorem handleToolCall_unregistered (c : Client) (args : Json) (s : String)
    (hs : registeredTool s = false) :
    handleToolCall c (.str s) args
      = textContent (jsonDumps (.obj
          [("error", .str ("Error executing " ++ s ++ ": " ++ ("Unknown tool: " ++ s)))])) := by
  simp only [handleToolCall, toolRoute_unregistered args s hs, pyStr, pyStrErr]

theorem handleResourceRead_unknown (c : Client) (u : String)
    (hu : knownResourceUri u = false) :
    handleResourceRead c (.str u)
      = contentsOf (jsonDumps (.obj
          [("error", .str ("Error reading resource " ++ u ++ ": " ++ ("Unknown resource URI: " ++ u)))])) := by
  simp only [knownResourceUri, Bool.or_eq_false_iff] at hu
  obtain ⟨⟨hu1, hu2⟩, hu3⟩ := hu
  unfold handleResourceRead
  simp only [hu1, hu2, hu3, Bool.false_eq_true, if_false, pyStr, pyStrErr]

/-- C1 (amended): a tools/call naming an unregistered tool and a
    resources/read whose URI matches no known scheme are both answered
    with a success envelope whose result carries a serialized error
    payload; the top-level RPC error field is not used for them. -/
theorem unknown_name_result_payload (c : Client) (id args : Json) (s u : String)
    (hs : registeredTool s = false) (hu : knownResourceUri u = false) :
    handleMessage c (.obj [("id", id), ("method", .str "tools/call"),
        ("params", .obj [("name", .str s), ("arguments", args)])])
      = .ok (okEnvelope id (textContent (jsonDumps (.obj
          [("error", .str ("Error executing " ++ s ++ ": " ++ ("Unknown tool: " ++ s)))])))) ∧
    handleMessage c (.obj [("id", id), ("method", .str "resources/read"),
        ("params", .obj [("uri", .str u)])])
      = .ok (okEnvelope id (contentsOf (jsonDumps (.obj
          [("error", .str ("Error reading resource " ++ u ++ ": " ++ ("Unknown resource URI: " ++ u)))])))) := by
  constructor
  · have step : handleMessage c (.obj [("id", id), ("method", .str "tools/call"),
        ("params", .obj [("name", .str s), ("arguments", args)])])
        = .ok (okEnvelope id (handleToolCall c (.str s) args)) := rfl
    rw [step, handleToolCall_unregistered c args s hs]
  · have step : handleMessage c (.obj [("id", id), ("method", .str "resources/read"),
        ("params", .obj [("uri", .str u)])])
        = .ok (okEnvelope id (handleResourceRead c (.str u))) := rfl
    rw [step, handleResourceRead_unknown c u hu]

/-- Witness for C1: the amended statement at tool name "nope" and
    resource URI "foo://x". -/
theorem unknown_name_result_payload_witness :
    handleMessage (constClient .null) (.obj [("id", .num 1), ("method", .str "tools/call"),
        ("params", .obj [("name", .str "nope"), ("arguments", .obj [])])])
      = .ok (okEnvelope (.num 1) (textContent (jsonDumps (.obj
          [("error", .str ("Error executing " ++ "nope" ++ ": " ++ ("Unknown tool: " ++ "nope")))])))) ∧
    handleMessage (constClient .null) (.obj [("id", .num 1), ("method", .str "resources/read"),
        ("params", .obj [("uri", .str "foo://x")])])
      = .ok (okEnvelope (.num 1) (contentsOf (jsonDumps (.obj
          [("error", .str ("Error reading resource " ++ "foo://x" ++ ": " ++
              ("Unknown resource URI: " ++ "foo://x")))])))) :=
  unknown_name_result_payload (constClient .null) (.num 1) (.obj []) "nope" "foo://x" rfl (by decide)

/-- C3 (counterexample): the serialized upstream-error payload keys the
    numeric code as status_code, not statusCode as the claim states. -/
theorem delete_error_key_counterexample :
    jfield (apiErrorPayload (.memosAPIError "Memos API error: 404 - Not found" (some 404)))
        "statusCode" = none ∧
    jfield (apiErrorPayload (.memosAPIError "Memos API error: 404 - Not found" (some 404)))
        "status_code" = some (.num 404) :=
  ⟨rfl, rfl⟩

/-- C3 (amended): when the upstream delete raises a MemosAPIError with a
    numeric status code, the tool result payload is the JSON object with
    keys error and status_code, under the envelope's result (the
    envelope reports success). -/
theorem delete_error_payload (msg : String) (code : Int) (id name : Json) :
    handleMessage (deleteErrClient msg code)
        (.obj [("id", id), ("method", .str "tools/call"),
               ("params", .obj [("name", .str "delete_memo"), ("arguments", .obj [("name", name)])])])
      = .ok (okEnvelope id (textContent (jsonDumps
          (.obj [("error", .str msg), ("status_code", .num code)])))) :=
  rfl

/-- C4 (counterexample): a response carrying an empty new-style memos
    list next to a non-empty legacy data list does not fall back: the
    extractor returns the empty new-style list and the list handler
    reports zero memos, not the legacy notes. -/
theorem list_fallback_counterexample :
    resultMemos (.obj [("memos", .arr []),
        ("data", .arr [.obj [("name", .str "memos/1"), ("content", .str "x")]])])
      = .ok (.arr []) ∧
    listMemosH (constClient (.obj [("memos", .arr []),
        ("data", .arr [.obj [("name", .str "memos/1"), ("content", .str "x")]])]))
        (.num 1) (.num 20) .null .null
      = jsonDumps (.obj [("memos", .arr []), ("count", .num 0)]) :=
  ⟨rfl, rfl⟩

/-- C4 (amended): the list extractor never raises on an object response
    and falls back to the legacy key only when the new-style key is
    absent; a present-but-falsy new-style value is returned as is, and
    the list handler then reports an empty result. -/
theorem list_key_fallback :
    (∀ (kvs : List (String × Json)) (v : Json), jget kvs "memos" = some v →
        resultMemos (.obj kvs) = .ok v) ∧
    (∀ kvs : List (String × Json), jget kvs "memos" = none →
        resultMemos (.obj kvs) = .ok (jgetD kvs "data" (.arr []))) ∧
    (∀ (kvs : List (String × Json)) (v page pageSize vis tag : Json),
        jget kvs "memos" = some v → truthy v = false →
        listMemosH (constClient (.obj kvs)) page pageSize vis tag
          = jsonDumps (.obj [("memos", .arr []), ("count", .num 0)])) := by
  refine ⟨?_, ?_, ?_⟩
  · intro kvs v h; simp [resultMemos, jgetD, h]
  · intro kvs h; simp [resultMemos, jgetD, h]
  · intro kvs v page pageSize vis tag h hv
    simp [listMemosH, constClient, resultMemos, jgetD, h, hv, handlerWrap,
      Bind.bind, Except.bind, pure, Except.pure]

/-- Witness for C4: the fallback rules applied to concrete responses. -/
theorem list_key_fallback_witness :
    resultMemos (.obj [("memos", .null), ("data", .arr [.obj []])]) = .ok .null ∧
    resultMemos (.obj [("data", .arr [])]) = .ok (.arr []) ∧
    listMemosH (constClient (.obj [("memos", .null), ("data", .arr [.obj []])]))
        (.num 1) (.num 20) .null .null
      = jsonDumps (.obj [("memos", .arr []), ("count", .num 0)]) :=
  ⟨list_key_fallback.1 _ _ rfl, list_key_fallback.2.1 _ rfl,
   list_key_fallback.2.2 _ .null (.num 1) (.num 20) .null .null rfl rfl⟩

/-- C5 (counterexample): a raw note with new-style content and tags and
    a legacy creator object normalizes to a canonical note that carries
    no creator field at all, even though the unused helper _memo_creator
    would resolve the nickname. -/
theorem creator_field_counterexample :
    memoToJsonObj (.obj [("content", .str "hello"), ("tags", .arr [.str "work"]),
        ("creator", .obj [("nickname", .str "Alice")])])
      = .ok (.obj [("name", .str ""), ("createTime", .str ""), ("updateTime", .str ""),
                   ("content", .str "hello"), ("tags", .arr [.str "work"])]) ∧
    hasKey (.obj [("name", Json.str ""), ("createTime", Json.str ""), ("updateTime", Json.str ""),
                  ("content", Json.str "hello"), ("tags", Json.arr [Json.str "work"])])
        "creator" = false ∧
    memoCreator (.obj [("content", .str "hello"), ("tags", .arr [.str "work"]),
        ("creator", .obj [("nickname", .str "Alice")])])
      = .ok (.str "Alice") :=
  ⟨rfl, rfl, rfl⟩

/-- C5 (amended): the helper _memo_creator resolves a legacy creator
    object to its nickname with default "Unknown", independently of the
    other fields, but the canonical note emitted by the normalizer does
    not include a creator field. -/
theorem creator_resolution :
    (∀ (kvs ckvs : List (String × Json)), jget kvs "creator" = some (.obj ckvs) →
        memoCreator (.obj kvs) = .ok (jgetD ckvs "nickname" (.str "Unknown"))) ∧
    (∀ (kvs : List (String × Json)) (out : Json), memoToJsonObj (.obj kvs) = .ok out →
        hasKey out "creator" = false) := by
  constructor
  · intro kvs ckvs h; simp [memoCreator, jgetD, h]
  · intro kvs out h
    cases ht : memoTags (jgetD kvs "tags" (.arr [])) with
    | error e => simp [memoToJsonObj, ht, Bind.bind, Except.bind] at h
    | ok tags =>
      simp [memoToJsonObj, ht, Bind.bind, Except.bind, pure, Except.pure] at h
      subst h
      rfl

/-- Witness for C5: creator resolution on a concrete legacy note. -/
theorem creator_resolution_witness :
    memoCreator (.obj [("creator", .obj [("nickname", .str "Alice")])]) = .ok (.str "Alice") ∧
    hasKey (.obj [("name", Json.str ""), ("createTime", Json.str ""), ("updateTime", Json.str ""),
                  ("content", Json.str ""), ("tags", Json.arr [])]) "creator" = false :=
  ⟨creator_resolution.1 [("creator", .obj [("nickname", .str "Alice")])] [("nickname", .str "Alice")] rfl,
   creator_resolution.2 [("creator", .obj [("nickname", .str "Alice")])] _ rfl⟩

theorem handleMessageBody_envelope (c : Client) (mid method params : Json) :
    jfield (handleMessageBody c mid method params) "id" = some mid ∧
    (hasKey (handleMessageBody c mid method params) "result"
       = !hasKey (handleMessageBody c mid method params) "error") := by
  unfold handleMessageBody
  cases h : routePayload c method params with
  | none => exact ⟨rfl, rfl⟩
  | some r =>
    cases r with
    | ok payload => exact ⟨rfl, rfl⟩
    | error e => exact ⟨rfl, rfl⟩

/-- C6: for every message whose method is one of the seven recognized RPC
    methods, the dispatcher returns an envelope whose id echoes the
    request id (null when absent) and which carries exactly one of a
    result payload or an error record. -/
theorem dispatch_envelope_exclusive (c : Client) (kvs : List (String × Json))
    (h : recognizedMethod (jgetD kvs "method" .null) = true) :
    handleMessage c (.obj kvs) = .ok (dispatchResp c (.obj kvs)) ∧
    jfield (dispatchResp c (.obj kvs)) "id" = some (jgetD kvs "id" .null) ∧
    hasKey (dispatchResp c (.obj kvs)) "result"
      = !hasKey (dispatchResp c (.obj kvs)) "error" := by
  have e1 : dispatchResp c (.obj kvs)
      = handleMessageBody c (jgetD kvs "id" .null) (jgetD kvs "method" .null)
          (jgetD kvs "params" (.obj [])) := rfl
  refine ⟨rfl, ?_, ?_⟩ <;> rw [e1]
  · exact (handleMessageBody_envelope c _ _ _).1
  · exact (handleMessageBody_envelope c _ _ _).2

/-- Witness for C6: the envelope shape at a concrete initialize call. -/
theorem dispatch_envelope_exclusive_witness :
    handleMessage (constClient .null) (.obj [("id", .num 7), ("method", .str "initialize")])
      = .ok (dispatchResp (constClient .null)
          (.obj [("id", .num 7), ("method", .str "initialize")])) ∧
    jfield (dispatchResp (constClient .null)
        (.obj [("id", .num 7), ("method", .str "initialize")])) "id"
      = some (jgetD [("id", Json.num 7), ("method", Json.str "initialize")] "id" .null) ∧
    hasKey (dispatchResp (constClient .null)
        (.obj [("id", .num 7), ("method", .str "initialize")])) "result"
      = !hasKey (dispatchResp (constClient .null)
          (.obj [("id", .num 7), ("method", .str "initialize")])) "error" :=
  dispatch_envelope_exclusive (constClient .null)
    [("id", .num 7), ("method", .str "initialize")] rfl

/-- C7: each of the six tools, called with exactly its required fields
    and every optional field omitted, is routed to its handler with the
    documented defaults: page 1 and page_size 20 for list and search,
    visibility PRIVATE for create, and None for the optional fields
    without a documented default. -/
theorem tool_defaults :
    (∀ content : Json, toolRoute (.str "create_memo") (.obj [("content", content)])
        = .ok (.createCall content (.str "PRIVATE"))) ∧
    toolRoute (.str "list_memos") (.obj [])
        = .ok (.listCall (.num 1) (.num 20) .null .null) ∧
    (∀ name : Json, toolRoute (.str "get_memo") (.obj [("name", name)])
        = .ok (.getCall name)) ∧
    (∀ name : Json, toolRoute (.str "update_memo") (.obj [("name", name)])
        = .ok (.updateCall name .null .null .null)) ∧
    (∀ name : Json, toolRoute (.str "delete_memo") (.obj [("name", name)])
        = .ok (.deleteCall name)) ∧
    (∀ query : Json, toolRoute (.str "search_memos") (.obj [("query", query)])
        = .ok (.searchCall query (.num 1) (.num 20))) :=
  ⟨fun _ => rfl, rfl, fun _ => rfl, fun _ => rfl, fun _ => rfl, fun _ => rfl⟩

/-- C8: every successfully normalized note carries the name, createTime,
    updateTime, content and tags fields; and the list handler's output
    notes are exactly the normalizer's images of the raw upstream notes,
    so raw upstream shapes never reach a tool result. -/
theorem canonical_note_invariant :
    (∀ (memo out : Json), memoToJsonObj memo = .ok out →
        hasKey out "name" = true ∧ hasKey out "createTime" = true ∧
        hasKey out "updateTime" = true ∧ hasKey out "content" = true ∧
        hasKey out "tags" = true) ∧
    (∀ (r : Json) (ms items : List Json) (page pageSize vis tag : Json),
        resultMemos r = .ok (.arr ms) → ms ≠ [] →
        mapMemoToJson ms = .ok items →
        listMemosH (constClient r) page pageSize vis tag
          = jsonDumps (.obj [("memos", .arr items), ("count", .num items.length)])) := by
  constructor
  · intro memo out h
    cases memo with
    | obj kvs =>
      cases ht : memoTags (jgetD kvs "tags" (.arr [])) with
      | error e => simp [memoToJsonObj, ht, Bind.bind, Except.bind] at h
      | ok tags =>
        simp [memoToJsonObj, ht, Bind.bind, Except.bind, pure, Except.pure] at h
        subst h
        exact ⟨rfl, rfl, rfl, rfl, rfl⟩
    | null => simp [memoToJsonObj] at h
    | bool b => simp [memoToJsonObj] at h
    | num n => simp [memoToJsonObj] at h
    | str s => simp [memoToJsonObj] at h
    | arr xs => simp [memoToJsonObj] at h
  · intro r ms items page pageSize vis tag h hne hmap
    have hms : (ms.isEmpty) = false := by
      cases ms with
      | nil => exact absurd rfl hne
      | cons a t => rfl
    simp only [mapMemoToJson, List.mapM] at hmap
    simp only [listMemosH, constClient, handlerWrap, Bind.bind, Except.bind, pure, Except.pure,
      mapMemoToJson, List.mapM]
    rw [h]
    simp [truthy, hms, pyIter, hmap, Except.map]

/-- Witness for C8: the invariant at a concrete raw note and response. -/
theorem canonical_note_invariant_witness :
    (hasKey (.obj [("name", Json.str ""), ("createTime", Json.str ""), ("updateTime", Json.str ""),
        ("content", Json.str "x"), ("tags", Json.arr [])]) "name" = true ∧
     hasKey (.obj [("name", Json.str ""), ("createTime", Json.str ""), ("updateTime", Json.str ""),
        ("content", Json.str "x"), ("tags", Json.arr [])]) "createTime" = true ∧
     hasKey (.obj [("name", Json.str ""), ("createTime", Json.str ""), ("updateTime", Json.str ""),
        ("content", Json.str "x"), ("tags", Json.arr [])]) "updateTime" = true ∧
     hasKey (.obj [("name", Json.str ""), ("createTime", Json.str ""), ("updateTime", Json.str ""),
        ("content", Json.str "x"), ("tags", Json.arr [])]) "content" = true ∧
     hasKey (.obj [("name", Json.str ""), ("createTime", Json.str ""), ("updateTime", Json.str ""),
        ("content", Json.str "x"), ("tags", Json.arr [])]) "tags" = true) ∧
    listMemosH (constClient (.obj [("memos", .arr [.obj [("content", .str "x")]])]))
        (.num 1) (.num 20) .null .null
      = jsonDumps (.obj
          [("memos", .arr [.obj [("name", .str ""), ("createTime", .str ""),
              ("updateTime", .str ""), ("content", .str "x"), ("tags", .arr [])]]),
           ("count", .num 1)]) :=
  ⟨canonical_note_invariant.1 (.obj [("content", .str "x")]) _ rfl,
   canonical_note_invariant.2 (.obj [("memos", .arr [.obj [("content", .str "x")]])])
     [.obj [("content", .str "x")]]
     [.obj [("name", .str ""), ("createTime", .str ""), ("updateTime", .str ""),
        ("content", .str "x"), ("tags", .arr [])]]
     (.num 1) (.num 20) .null .null rfl (by simp) rfl⟩

/-- C9: the search tool's page argument has no observable effect: the
    request built by the client is identical for any two page values
    (only pageSize and the content filter are sent), and the serialized
    tool results agree for any upstream behaviour. -/
theorem search_page_no_effect (upstream : HttpRequest → Except PyErr Json)
    (query p1 p2 pageSize : Json) :
    clientSearchMemos upstream query p1 pageSize
      = clientSearchMemos upstream query p2 pageSize ∧
    searchMemosH (searchClient upstream) query p1 pageSize
      = searchMemosH (searchClient upstream) query p2 pageSize ∧
    ∀ q : String, ((buildSearchRequest q pageSize).params.map Prod.fst)
      = ["pageSize", "filter"] :=
  ⟨rfl, rfl, fun _ => rfl⟩

theorem tagNames_error_at_str (ts1 : List Json) (s : String) (ts2 : List Json)
    (h : ∀ j ∈ ts1, isObjJ j = true) :
    tagNames (ts1 ++ .str s :: ts2) = .error (noGetAttr (.str s)) := by
  induction ts1 with
  | nil => rfl
  | cons a t ih =>
    have ha := h a (List.mem_cons_self a t)
    have ht : ∀ j ∈ t, isObjJ j = true := fun j hj => h j (List.mem_cons_of_mem a hj)
    cases a <;> simp [isObjJ] at ha
    rename_i tk
    simp [tagNames, ih ht, Except.map]

/-- C10: when a raw note's tags list starts with an object but contains
    a bare string later, normalization raises AttributeError inside the
    handler (the first element decided the whole list is objects), and
    the get_memo tool call returns an error payload instead of a
    normalized note. -/
theorem mixed_tags_error (t0 rest : List (String × Json)) (ts1 ts2 : List Json)
    (s : String) (name : Json) (h : ∀ j ∈ ts1, isObjJ j = true) :
    memoToJsonObj (.obj (("tags", .arr (.obj t0 :: (ts1 ++ .str s :: ts2))) :: rest))
      = .error (.attributeError "'str' object has no attribute 'get'") ∧
    handleToolCall
        (constClient (.obj [("memo",
          .obj (("tags", .arr (.obj t0 :: (ts1 ++ .str s :: ts2))) :: rest))]))
        (.str "get_memo") (.obj [("name", name)])
      = textContent (jsonDumps (.obj
          [("error", .str "'str' object has no attribute 'get'")])) := by
  have htags : memoTags (.arr (.obj t0 :: (ts1 ++ .str s :: ts2)))
      = .error (noGetAttr (.str s)) := by
    simp [memoTags, truthy, pySubscriptZero, pyIter, Bind.bind, Except.bind,
      tagNames_error_at_str ts1 s ts2 h, tagNames, Except.map]
  have hmemo : memoToJsonObj (.obj (("tags", .arr (.obj t0 :: (ts1 ++ .str s :: ts2))) :: rest))
      = .error (noGetAttr (.str s)) := by
    simp [memoToJsonObj, jgetD, jget, htags, Bind.bind, Except.bind]
  refine ⟨hmemo, ?_⟩
  simp [handleToolCall, toolRoute, jeqStr, pySubscript, jget, runToolCall, getMemoH,
    constClient, handlerWrap, Bind.bind, Except.bind, pure, Except.pure,
    resultMemo, jgetD, truthy, hmemo, isAPIError, noGetAttr, pyStrErr]
  rfl

/-- Witness for C10: the mixed tags list [{"name": "a"}, "b"]. -/
theorem mixed_tags_error_witness :
    memoToJsonObj (.obj [("tags", .arr [.obj [("name", .str "a")], .str "b"])])
      = .error (.attributeError "'str' object has no attribute 'get'") ∧
    handleToolCall
        (constClient (.obj [("memo",
          .obj [("tags", .arr [.obj [("name", .str "a")], .str "b"])])]))
        (.str "get_memo") (.obj [("name", .str "m")])
      = textContent (jsonDumps (.obj
          [("error", .str "'str' object has no attribute 'get'")])) :=
  mixed_tags_error [("name", .str "a")] [] [] [] "b" (.str "m") (by simp)
